import Mathlib

/-!
# Verification of the `data-proxy-service-v2` video relay

Shallow embedding of the `GET /video-proxy` handler of `src/index.js`
(lines 170-219) together with models of the platform primitives it relies
on: the WHATWG `URL` constructor, JavaScript's `decodeURIComponent` /
`encodeURIComponent`, and the query-string decoding that the Express
framework applies to `req.query.url` before the handler runs.

Machine integers do not occur in the relay; strings are modelled by Lean
`String` (a list of unicode characters) and HTTP headers by association
lists from header name to raw value.  An absent header is `none`; the
JavaScript truthiness tests the handler performs (`if (!url)`,
`headers.location &&`, `x || d`) are modelled exactly, so a present but
empty header value behaves as "absent" precisely where the code treats it
so.
-/

namespace VideoProxy

/-! ## Bytes and UTF-8

JavaScript's `decodeURIComponent` decodes `%HH` escapes to bytes and then
interprets the byte sequence as UTF-8, throwing `URIError` on a malformed
escape or invalid UTF-8.  We model bytes as `Nat` (values `< 256`). -/

/-- UTF-8 encoding of a single character, as a list of byte values. -/
def charUtf8Bytes (c : Char) : List Nat :=
  let n := c.toNat
  if n < 0x80 then [n]
  else if n < 0x800 then [0xC0 + n / 64, 0x80 + n % 64]
  else if n < 0x10000 then
    [0xE0 + n / 4096, 0x80 + (n / 64) % 64, 0x80 + n % 64]
  else
    [0xF0 + n / 262144, 0x80 + (n / 4096) % 64, 0x80 + (n / 64) % 64, 0x80 + n % 64]

/-- Is `b` a UTF-8 continuation byte (`10xxxxxx`)? -/
def isContByte (b : Nat) : Bool := 0x80 ≤ b && b ≤ 0xBF

/-- Strict UTF-8 decoder: rejects truncated sequences, continuation-byte
errors, overlong encodings and surrogate code points, exactly the inputs on
which `decodeURIComponent` throws `URIError`. -/
def utf8Decode : List Nat → Option (List Char)
  | [] => some []
  | b :: bs =>
    if b < 0x80 then
      (utf8Decode bs).map (fun cs => Char.ofNat b :: cs)
    else if 0xC2 ≤ b && b ≤ 0xDF then
      match bs with
      | b2 :: bs2 =>
        if isContByte b2 then
          (utf8Decode bs2).map (fun cs => Char.ofNat ((b - 0xC0) * 64 + (b2 - 0x80)) :: cs)
        else none
      | [] => none
    else if 0xE0 ≤ b && b ≤ 0xEF then
      match bs with
      | b2 :: b3 :: bs3 =>
        if isContByte b2 && isContByte b3
            && (b != 0xE0 || 0xA0 ≤ b2)
            && (b != 0xED || b2 ≤ 0x9F) then
          (utf8Decode bs3).map (fun cs =>
            Char.ofNat ((b - 0xE0) * 4096 + (b2 - 0x80) * 64 + (b3 - 0x80)) :: cs)
        else none
      | _ => none
    else if 0xF0 ≤ b && b ≤ 0xF4 then
      match bs with
      | b2 :: b3 :: b4 :: bs4 =>
        if isContByte b2 && isContByte b3 && isContByte b4
            && (b != 0xF0 || 0x90 ≤ b2)
            && (b != 0xF4 || b2 ≤ 0x8F) then
          (utf8Decode bs4).map (fun cs =>
            Char.ofNat ((b - 0xF0) * 262144 + (b2 - 0x80) * 4096
              + (b3 - 0x80) * 64 + (b4 - 0x80)) :: cs)
        else none
      | _ => none
    else none

/-- Numeric value of a hexadecimal digit (both cases), if any. -/
def hexVal (c : Char) : Option Nat :=
  if '0' ≤ c && c ≤ '9' then some (c.toNat - 48)
  else if 'A' ≤ c && c ≤ 'F' then some (c.toNat - 55)
  else if 'a' ≤ c && c ≤ 'f' then some (c.toNat - 87)
  else none

/-- Turn a percent-encoded character list into the byte sequence it denotes:
`%HH` becomes one byte, any other character contributes its UTF-8 bytes.
`none` on a `%` not followed by two hex digits (JS throws `URIError`). -/
def pctBytes : List Char → Option (List Nat)
  | [] => some []
  | '%' :: c1 :: c2 :: rest =>
    match hexVal c1, hexVal c2 with
    | some h1, some h2 => (pctBytes rest).map (fun bs => (h1 * 16 + h2) :: bs)
    | _, _ => none
  | '%' :: _ => none
  | c :: rest => (pctBytes rest).map (fun bs => charUtf8Bytes c ++ bs)

/-- Model of JavaScript's `decodeURIComponent`: percent-decode to bytes,
then decode the bytes as UTF-8; `none` exactly when JS throws `URIError`. -/
def decodeURIComponentJs (s : String) : Option String :=
  (pctBytes s.data).bind (fun bs => (utf8Decode bs).map String.mk)

/-- The characters `encodeURIComponent` leaves unescaped:
`A-Z a-z 0-9 - _ . ! ~ * ' ( )`. -/
def isUnreservedURI (c : Char) : Bool :=
  c.isAlpha || c.isDigit
    || c = '-' || c = '_' || c = '.' || c = '!' || c = '~' || c = '*'
    || c = Char.ofNat 39 || c = '(' || c = ')'

/-- Upper-case hexadecimal digit for a value `< 16`. -/
def hexDigitUpper (n : Nat) : Char :=
  if n < 10 then Char.ofNat (48 + n) else Char.ofNat (55 + n)

/-- `%HH` escape (upper-case hex) of one byte. -/
def pctEncodeByte (b : Nat) : List Char :=
  ['%', hexDigitUpper (b / 16), hexDigitUpper (b % 16)]

/-- Model of JavaScript's `encodeURIComponent`: unreserved characters pass
through, every other character is replaced by the `%HH` escapes of its
UTF-8 bytes. -/
def encodeURIComponentJs (s : String) : String :=
  String.mk ((s.data.map (fun c =>
    if isUnreservedURI c then [c]
    else ((charUtf8Bytes c).map pctEncodeByte).flatten)).flatten)

/-- Model of the value decoder Express's query-string parser (the `qs`
library) applies to each raw parameter value on the wire: `+` becomes a
space, then `decodeURIComponent`; if that throws, the (plus-replaced)
string is kept as-is.  This runs before the handler ever sees
`req.query.url`. -/
def expressQueryDecode (s : String) : String :=
  let t := String.mk (s.data.map (fun c => if c = '+' then ' ' else c))
  (decodeURIComponentJs t).getD t

/-! ## The WHATWG `URL` constructor

The handler calls `new URL(decodedUrl)` (no base), which throws on a
string that is not an absolute URL.  The model below covers the fragment
of the WHATWG parser exercised by the relay: scheme recognition, the
authority (userinfo, host, port with default-port elision), path, query
and fragment splitting, for both special schemes (`http`, `https`, `ws`,
`wss`, `ftp`, `file` — authority-based) and non-special schemes (opaque
path).  Host validation and percent re-encoding of components are not
modelled: components are kept verbatim (faithful for the host/path
characters that occur in this development), and IPv6 host literals are
rejected rather than parsed. -/

/-- Result of the WHATWG `URL` constructor, with the component accessors
the handler reads.  As in the `URL` API, `protocol` carries its trailing
colon, `search`/`hash` carry their leading `?`/`#` (or are empty), and
`port` is `none` when the URL has no explicit non-default port. -/
structure URLRec where
  protocol : String
  username : String
  password : String
  hostname : String
  port : Option Nat
  pathname : String
  search : String
  hash : String
  deriving Repr, DecidableEq

/-- May `c` occur in a scheme after the first character? -/
def isSchemeChar (c : Char) : Bool :=
  c.isAlpha || c.isDigit || c = '+' || c = '-' || c = '.'

/-- The WHATWG special schemes (without trailing colon). -/
def specialSchemes : List String := ["http", "https", "ws", "wss", "ftp", "file"]

/-- Default port of a special scheme, used for default-port elision. -/
def defaultPort (scheme : String) : Option Nat :=
  if scheme = "http" || scheme = "ws" then some 80
  else if scheme = "https" || scheme = "wss" then some 443
  else if scheme = "ftp" then some 21
  else none

/-- Split at the first character satisfying `p`: the delimiter (when found)
starts the second component. -/
def splitFirst (cs : List Char) (p : Char → Bool) : List Char × List Char :=
  (cs.takeWhile (fun c => !(p c)), cs.dropWhile (fun c => !(p c)))

/-- Split at the last occurrence of `ch`, neither side keeping it;
`none` when `ch` does not occur. -/
def splitLast (cs : List Char) (ch : Char) : Option (List Char × List Char) :=
  if cs.contains ch then
    let r := splitFirst cs.reverse (fun c => c = ch)
    some ((r.2.drop 1).reverse, r.1.reverse)
  else none

/-- Parse the `query#fragment` tail that follows the path, returning the
`search` and `hash` components with the `URL` API's convention that a bare
`?` or `#` yields the empty string. -/
def parseSearchHash (rest : List Char) : String × String :=
  match rest with
  | '?' :: r =>
    let q := splitFirst r (fun c => c = '#')
    (if q.1 = [] then "" else String.mk ('?' :: q.1),
     match q.2 with
     | '#' :: f => if f = [] then "" else String.mk ('#' :: f)
     | _ => "")
  | '#' :: f => ("", if f = [] then "" else String.mk ('#' :: f))
  | _ => ("", "")

/-- Parse the authority (`user:pass@host:port`) and the rest of a
special-scheme URL into a `URLRec`; `none` on an invalid authority. -/
def parseAuthority (scheme : String) (auth rest : List Char) : Option URLRec :=
  let updata :=
    if auth.contains '@' then
      match splitLast auth '@' with
      | some (ui, hp) =>
        let u := splitFirst ui (fun c => c = ':')
        (String.mk u.1, String.mk (u.2.drop 1), hp)
      | none => ("", "", auth)
    else ("", "", auth)
  let hostport := updata.2.2
  if hostport.contains '[' || hostport.contains ']' then none
  else
    let hpp : Option (List Char × Option Nat) :=
      match splitLast hostport ':' with
      | some (h, pcs) =>
        if pcs = [] then some (h, none)
        else if pcs.all Char.isDigit then
          let n := pcs.foldl (fun acc c => acc * 10 + (c.toNat - 48)) 0
          if n ≤ 65535 then some (h, some n) else none
        else none
      | none => some (hostport, none)
    match hpp with
    | none => none
    | some (hostCs, portRaw) =>
      if hostCs = [] && scheme ≠ "file" then none
      else
        let port := if portRaw = defaultPort scheme then none else portRaw
        let path := splitFirst rest (fun c => c = '?' || c = '#')
        let sh := parseSearchHash path.2
        some
          { protocol := scheme ++ ":"
            username := updata.1
            password := updata.2.1
            hostname := String.mk (hostCs.map Char.toLower)
            port := port
            pathname :=
              if path.1 = [] then "/"
              else String.mk (path.1.map (fun c => if c = '\\' then '/' else c))
            search := sh.1
            hash := sh.2 }

/-- Model of `new URL(s)` with no base: `none` exactly when the
constructor throws `Invalid URL`. -/
def parseURL (s : String) : Option URLRec :=
  let sp := splitFirst s.data (fun c => c = ':')
  match sp.2 with
  | [] => none
  | _ :: afterColon =>
    match sp.1 with
    | [] => none
    | c0 :: ctail =>
      if !(c0.isAlpha && ctail.all isSchemeChar) then none
      else
        let scheme := String.mk ((c0 :: ctail).map Char.toLower)
        if specialSchemes.contains scheme then
          let afterSlashes := afterColon.dropWhile (fun c => c = '/' || c = '\\')
          let a := splitFirst afterSlashes
            (fun c => c = '/' || c = '\\' || c = '?' || c = '#')
          parseAuthority scheme a.1 a.2
        else
          let p := splitFirst afterColon (fun c => c = '?' || c = '#')
          let sh := parseSearchHash p.2
          some
            { protocol := scheme ++ ":"
              username := ""
              password := ""
              hostname := ""
              port := none
              pathname := String.mk p.1
              search := sh.1
              hash := sh.2 }

/-! ## The `GET /video-proxy` handler (src/index.js lines 170-219)

The handler is embedded as a pure function from the inbound request and a
model of the upstream network to the inbound response together with the
list of outbound requests it issued.  The upstream network is a function
from the chosen client module (`http` or `https`) and the constructed
request options to an outcome: response headers received, or a transport
error (the `proxyReq` `error` event).  Body streaming, backpressure and
client disconnects are not part of this embedding. -/

/-- JavaScript truthiness of a possibly-absent header/string value:
`undefined` and the empty string are falsy. -/
def truthy : Option String → Bool
  | none => false
  | some s => s ≠ ""

/-- JavaScript `x || d` on a possibly-absent string. -/
def jsOr (x : Option String) (d : String) : String :=
  match x with
  | some s => if s = "" then d else s
  | none => d

/-- The inbound request as the handler sees it: `req.query.url` (after
the framework's query-string decoding) and `req.headers.range`. -/
structure InboundRequest where
  queryUrl : Option String
  range : Option String
  deriving Repr, DecidableEq

/-- The options object passed to `client.request` (src/index.js 179-192).
The source sets no `method`, so Node's default `GET` applies. -/
structure OutboundOpts where
  method : String
  hostname : String
  port : Nat
  path : String
  headers : List (String × String)
  deriving Repr, DecidableEq

/-- Which Node client module issues the outbound request
(`parsed.protocol === 'https:' ? https : http`, line 177). -/
inductive ClientModule
  | http
  | https
  deriving Repr, DecidableEq

/-- The upstream response head (`proxyRes`): status code and the response
headers the handler reads, plus the body that would be piped through. -/
structure UpstreamResponse where
  statusCode : Nat
  contentType : Option String
  contentLength : Option String
  contentRange : Option String
  location : Option String
  body : String
  deriving Repr, DecidableEq

/-- Outcome of one outbound request: a response head, or the `error`
event on `proxyReq` (connection, timeout or transport failure). -/
inductive UpstreamOutcome
  | response (pr : UpstreamResponse)
  | transportError
  deriving Repr, DecidableEq

/-- A model of the upstream network: what each issued request produces. -/
def Upstream : Type := ClientModule → OutboundOpts → UpstreamOutcome

/-- The inbound response the handler writes: status, headers set, body. -/
structure InboundResponse where
  status : Nat
  headers : List (String × String)
  body : String
  deriving Repr, DecidableEq

/-- Result of one handler invocation: the inbound response and the
outbound requests issued (in order). -/
structure RelayResult where
  response : InboundResponse
  outbound : List (ClientModule × OutboundOpts)
  deriving Repr, DecidableEq

/-- `res.status(400).end()`: a 400 with no headers set and an empty body,
with no outbound request issued (lines 172 and 217). -/
def err400 : RelayResult :=
  { response := { status := 400, headers := [], body := "" }, outbound := [] }

/-- Lines 177 of the source: scheme selection for the client module. -/
def schemeClient (parsed : URLRec) : ClientModule :=
  if parsed.protocol = "https:" then ClientModule.https else ClientModule.http

/-- Lines 179-192: the `opts` object.  `parsed.port || (https ? 443 : 80)`
uses the explicit port when present (the `URL` API leaves `port` empty for
an absent or default port) and the inbound `Range` header is copied
verbatim when truthy. -/
def buildOpts (parsed : URLRec) (range : Option String) : OutboundOpts :=
  { method := "GET"
    hostname := parsed.hostname
    port :=
      match parsed.port with
      | some p => p
      | none => if parsed.protocol = "https:" then 443 else 80
    path := parsed.pathname ++ parsed.search
    headers :=
      [("User-Agent", "Mozilla/5.0"),
       ("Accept", "*/*"),
       ("Accept-Encoding", "identity")]
      ++ (match range with
          | some r => if r = "" then [] else [("Range", r)]
          | none => []) }

/-- Line 195: is this upstream response taken by the redirect branch
(`[301,302,307,308].includes(status) && headers.location`)? -/
def isRedirectHop (pr : UpstreamResponse) : Bool :=
  [301, 302, 307, 308].contains pr.statusCode && truthy pr.location

/-- Lines 195-210: what the handler writes once `proxyRes` arrives.  The
redirect branch is `res.redirect(...)`, an HTTP 302 whose `Location`
points back at `/video-proxy` with the target percent-encoded (the
human-readable body Express attaches to a redirect is not modelled).  The
content branch copies the status and the media headers. -/
def handleUpstreamResponse (pr : UpstreamResponse) : InboundResponse :=
  if isRedirectHop pr then
    { status := 302
      headers :=
        [("Location", "/video-proxy?url=" ++ encodeURIComponentJs (pr.location.getD ""))]
      body := "" }
  else
    { status := pr.statusCode
      headers :=
        [("Content-Type", jsOr pr.contentType "video/mp4"),
         ("Accept-Ranges", "bytes")]
        ++ (if truthy pr.contentLength
            then [("Content-Length", pr.contentLength.getD "")] else [])
        ++ (if truthy pr.contentRange
            then [("Content-Range", pr.contentRange.getD "")] else [])
      body := pr.body }

/-- Lines 175-176: `decodeURIComponent(url)` then `new URL(decodedUrl)`;
`none` when either throws (the `catch` makes that a 400). -/
def resolveTarget (u : String) : Option URLRec :=
  (decodeURIComponentJs u).bind parseURL

/-- Lines 177-214: one hop against the upstream with the constructed
options; a transport error is answered with `res.status(502).end()`. -/
def relayStep (upstream : Upstream) (parsed : URLRec) (range : Option String) :
    RelayResult :=
  let client := schemeClient parsed
  let opts := buildOpts parsed range
  match upstream client opts with
  | UpstreamOutcome.transportError =>
    { response := { status := 502, headers := [], body := "" }
      outbound := [(client, opts)] }
  | UpstreamOutcome.response pr =>
    { response := handleUpstreamResponse pr
      outbound := [(client, opts)] }

/-- The `GET /video-proxy` handler, lines 170-219: reject a falsy
`req.query.url`, decode and parse it (any throw is caught as a 400), then
perform the single upstream hop. -/
def videoProxy (upstream : Upstream) (req : InboundRequest) : RelayResult :=
  match req.queryUrl with
  | none => err400
  | some u =>
    if u = "" then err400
    else
      match resolveTarget u with
      | none => err400
      | some parsed => relayStep upstream parsed req.range

/-- The handler composed with the framework's query-string decoding of
the raw on-the-wire value of the `url` parameter: by the time line 171
reads `req.query.url`, Express has already percent-decoded the wire
value once. -/
def handleWire (upstream : Upstream) (rawUrlParam : String) (range : Option String) :
    RelayResult :=
  videoProxy upstream
    { queryUrl := some (expressQueryDecode rawUrlParam), range := range }

/-! ## Test fixtures: concrete upstream models -/

/-- A content response: 200 with a media type, a length and a body. -/
def contentResp : UpstreamResponse :=
  { statusCode := 200, contentType := some "video/mp4", contentLength := some "4",
    contentRange := none, location := none, body := "DATA" }

/-- An upstream for which every request succeeds with `contentResp`. -/
def contentUpstream : Upstream := fun _ _ => UpstreamOutcome.response contentResp

/-- An upstream for which every request answers 302 towards
`http://b.example/v.mp4`. -/
def redirectingUpstream : Upstream := fun _ _ => UpstreamOutcome.response
  { statusCode := 302, contentType := none, contentLength := none,
    contentRange := none, location := some "http://b.example/v.mp4", body := "" }

/-- An upstream that redirects every request to `http://loop.example/v` —
in particular, requests for that very URL — i.e. it redirects to itself
indefinitely. -/
def selfRedirectUpstream : Upstream := fun _ _ => UpstreamOutcome.response
  { statusCode := 302, contentType := none, contentLength := none,
    contentRange := none, location := some "http://loop.example/v", body := "" }

/-- An upstream for which every connection attempt fails at the
transport level. -/
def failingUpstream : Upstream := fun _ _ => UpstreamOutcome.transportError

/-! ## General lemmas about the handler -/

/-- The empty string is not a parsable target. -/
theorem resolveTarget_empty : resolveTarget "" = none := rfl

/-- A parsable target is nonempty. -/
theorem resolveTarget_some_ne_empty {u : String} {parsed : URLRec}
    (h : resolveTarget u = some parsed) : u ≠ "" := by
  intro he
  rw [he, resolveTarget_empty] at h
  exact Option.noConfusion h

/-- On a parsable target the handler reduces to the single upstream hop. -/
theorem videoProxy_valid (upstream : Upstream) (u : String)
    (range : Option String) (parsed : URLRec)
    (h : resolveTarget u = some parsed) :
    videoProxy upstream { queryUrl := some u, range := range } =
      relayStep upstream parsed range := by
  have hu : u ≠ "" := resolveTarget_some_ne_empty h
  simp only [videoProxy, hu, if_false, h]

/-- Whatever the upstream outcome, the hop records exactly the one
request it issued. -/
theorem relayStep_outbound (upstream : Upstream) (parsed : URLRec)
    (range : Option String) :
    (relayStep upstream parsed range).outbound =
      [(schemeClient parsed, buildOpts parsed range)] := by
  cases h : upstream (schemeClient parsed) (buildOpts parsed range) <;>
    simp [relayStep, h]

/-! ## Claims -/

/-- C3: for every inbound request whose `url` query parameter is missing,
empty, or does not decode-and-parse as an absolute URL, the relay
responds HTTP 400 with an empty body and issues zero outbound
connections. -/
theorem invalid_url_yields_400_no_outbound (upstream : Upstream)
    (req : InboundRequest)
    (h : req.queryUrl = none ∨
      ∃ u, req.queryUrl = some u ∧ (u = "" ∨ resolveTarget u = none)) :
    (videoProxy upstream req).response.status = 400 ∧
    (videoProxy upstream req).response.body = "" ∧
    (videoProxy upstream req).outbound = [] := by
  rcases h with h | ⟨u, hq, h⟩
  · simp [videoProxy, h, err400]
  · rcases eq_or_ne u "" with he | hne
    · subst he
      simp [videoProxy, hq, err400]
    · rcases h with h | h
      · exact absurd h hne
      · simp [videoProxy, hq, hne, h, err400]

/-- Witness for C3 at the concrete input `url=not-a-url`. -/
theorem invalid_url_yields_400_no_outbound_witness :
    (videoProxy contentUpstream
      { queryUrl := some "not-a-url", range := none }).response.status = 400 ∧
    (videoProxy contentUpstream
      { queryUrl := some "not-a-url", range := none }).response.body = "" ∧
    (videoProxy contentUpstream
      { queryUrl := some "not-a-url", range := none }).outbound = [] :=
  invalid_url_yields_400_no_outbound contentUpstream _
    (Or.inr ⟨"not-a-url", rfl, Or.inr (by decide)⟩)

/-- C10: the handler is total over arbitrary `url` strings: a failure of
percent-decoding (malformed escape) or of URL parsing is caught and
mapped to the 400 response with empty body and no outbound request, so no
input string escapes the `try`/`catch` with an uncaught exception. -/
theorem decode_parse_errors_caught_as_400 (upstream : Upstream)
    (range : Option String) (u : String)
    (h : decodeURIComponentJs u = none ∨ resolveTarget u = none) :
    videoProxy upstream { queryUrl := some u, range := range } = err400 := by
  have hr : resolveTarget u = none := by
    rcases h with h | h
    · simp [resolveTarget, h]
    · exact h
  rcases eq_or_ne u "" with he | hne
  · subst he
    simp [videoProxy]
  · simp [videoProxy, hne, hr]

/-- Witness for C10 at the concrete input `url=%zz`, a malformed escape
on which `decodeURIComponent` throws. -/
theorem decode_parse_errors_caught_as_400_witness :
    videoProxy contentUpstream { queryUrl := some "%zz", range := none } = err400 :=
  decode_parse_errors_caught_as_400 contentUpstream none "%zz" (Or.inl (by decide))

/-- C4: for every non-redirect upstream response (with well-formed, i.e.
non-empty, header values) the inbound status equals the upstream status
exactly; `Content-Type` is copied, defaulting to `video/mp4` when absent;
`Accept-Ranges: bytes` is always set; and `Content-Length` /
`Content-Range` are copied exactly when the upstream supplied them. -/
theorem content_response_mirrors_upstream (upstream : Upstream) (u : String)
    (range : Option String) (parsed : URLRec) (pr : UpstreamResponse)
    (hres : resolveTarget u = some parsed)
    (hup : upstream (schemeClient parsed) (buildOpts parsed range) =
      UpstreamOutcome.response pr)
    (hred : isRedirectHop pr = false)
    (hct : pr.contentType ≠ some "")
    (hcl : pr.contentLength ≠ some "")
    (hcr : pr.contentRange ≠ some "") :
    (videoProxy upstream { queryUrl := some u, range := range }).response.status
        = pr.statusCode ∧
    (videoProxy upstream { queryUrl := some u, range := range }).response.headers.lookup
        "Content-Type" = some (pr.contentType.getD "video/mp4") ∧
    (videoProxy upstream { queryUrl := some u, range := range }).response.headers.lookup
        "Accept-Ranges" = some "bytes" ∧
    (videoProxy upstream { queryUrl := some u, range := range }).response.headers.lookup
        "Content-Length" = pr.contentLength ∧
    (videoProxy upstream { queryUrl := some u, range := range }).response.headers.lookup
        "Content-Range" = pr.contentRange := by
  rw [videoProxy_valid upstream u range parsed hres]
  simp only [relayStep, hup, handleUpstreamResponse, hred, Bool.false_eq_true,
    if_false]
  rcases pr with ⟨st, ct, cl, cr, loc, body⟩
  rcases ct with _ | ct <;> rcases cl with _ | cl <;> rcases cr with _ | cr <;>
    simp_all [jsOr, truthy, List.lookup]

/-- Witness for C4: a 206 partial-content upstream response with all the
relevant headers present is mirrored exactly. -/
theorem content_response_mirrors_upstream_witness :
    (videoProxy
      (fun _ _ => UpstreamOutcome.response
        { statusCode := 206, contentType := some "video/webm",
          contentLength := some "100", contentRange := some "bytes 100-199/1000",
          location := none, body := "B" })
      { queryUrl := some "http://a.example/v.mp4",
        range := some "bytes=100-199" }).response.status = 206 ∧
    (videoProxy
      (fun _ _ => UpstreamOutcome.response
        { statusCode := 206, contentType := some "video/webm",
          contentLength := some "100", contentRange := some "bytes 100-199/1000",
          location := none, body := "B" })
      { queryUrl := some "http://a.example/v.mp4",
        range := some "bytes=100-199" }).response.headers.lookup
        "Content-Type" = some "video/webm" ∧
    (videoProxy
      (fun _ _ => UpstreamOutcome.response
        { statusCode := 206, contentType := some "video/webm",
          contentLength := some "100", contentRange := some "bytes 100-199/1000",
          location := none, body := "B" })
      { queryUrl := some "http://a.example/v.mp4",
        range := some "bytes=100-199" }).response.headers.lookup
        "Accept-Ranges" = some "bytes" ∧
    (videoProxy
      (fun _ _ => UpstreamOutcome.response
        { statusCode := 206, contentType := some "video/webm",
          contentLength := some "100", contentRange := some "bytes 100-199/1000",
          location := none, body := "B" })
      { queryUrl := some "http://a.example/v.mp4",
        range := some "bytes=100-199" }).response.headers.lookup
        "Content-Length" = some "100" ∧
    (videoProxy
      (fun _ _ => UpstreamOutcome.response
        { statusCode := 206, contentType := some "video/webm",
          contentLength := some "100", contentRange := some "bytes 100-199/1000",
          location := none, body := "B" })
      { queryUrl := some "http://a.example/v.mp4",
        range := some "bytes=100-199" }).response.headers.lookup
        "Content-Range" = some "bytes 100-199/1000" :=
  content_response_mirrors_upstream _ "http://a.example/v.mp4"
    (some "bytes=100-199")
    { protocol := "http:", username := "", password := "", hostname := "a.example",
      port := none, pathname := "/v.mp4", search := "", hash := "" }
    { statusCode := 206, contentType := some "video/webm",
      contentLength := some "100", contentRange := some "bytes 100-199/1000",
      location := none, body := "B" }
    (by decide) rfl (by decide) (by decide) (by decide) (by decide)

/-- C5: for every validly parsed target the outbound request is a GET
carrying exactly the browser-like `User-Agent`, `Accept: */*` and
`Accept-Encoding: identity` headers, with the inbound `Range` value (when
one is present and non-empty) forwarded verbatim and no `Range` header
otherwise. -/
theorem outbound_request_construction (upstream : Upstream) (u : String)
    (range : Option String) (parsed : URLRec)
    (hres : resolveTarget u = some parsed)
    (hrange : range = none ∨ ∃ r, range = some r ∧ r ≠ "") :
    (videoProxy upstream { queryUrl := some u, range := range }).outbound =
      [(schemeClient parsed, buildOpts parsed range)] ∧
    (buildOpts parsed range).method = "GET" ∧
    (buildOpts parsed range).headers.lookup "User-Agent" = some "Mozilla/5.0" ∧
    (buildOpts parsed range).headers.lookup "Accept" = some "*/*" ∧
    (buildOpts parsed range).headers.lookup "Accept-Encoding" = some "identity" ∧
    (buildOpts parsed range).headers.lookup "Range" = range := by
  refine ⟨?_, rfl, ?_, ?_, ?_, ?_⟩
  · rw [videoProxy_valid upstream u range parsed hres]
    exact relayStep_outbound upstream parsed range
  all_goals
    rcases hrange with h | ⟨r, h, hne⟩ <;> subst h <;>
      simp_all [buildOpts, List.lookup]

/-- Witness for C5 with a concrete target and `Range: bytes=0-1023`. -/
theorem outbound_request_construction_witness :
    (videoProxy contentUpstream
      { queryUrl := some "http://a.example/v.mp4",
        range := some "bytes=0-1023" }).outbound =
      [(ClientModule.http,
        { method := "GET", hostname := "a.example", port := 80, path := "/v.mp4",
          headers :=
            [("User-Agent", "Mozilla/5.0"), ("Accept", "*/*"),
             ("Accept-Encoding", "identity"), ("Range", "bytes=0-1023")] })] ∧
    ({ method := "GET", hostname := "a.example", port := 80, path := "/v.mp4",
       headers :=
         [("User-Agent", "Mozilla/5.0"), ("Accept", "*/*"),
          ("Accept-Encoding", "identity"),
          ("Range", "bytes=0-1023")] } : OutboundOpts).method = "GET" ∧
    ({ method := "GET", hostname := "a.example", port := 80, path := "/v.mp4",
       headers :=
         [("User-Agent", "Mozilla/5.0"), ("Accept", "*/*"),
          ("Accept-Encoding", "identity"),
          ("Range", "bytes=0-1023")] } : OutboundOpts).headers.lookup "User-Agent"
        = some "Mozilla/5.0" ∧
    ({ method := "GET", hostname := "a.example", port := 80, path := "/v.mp4",
       headers :=
         [("User-Agent", "Mozilla/5.0"), ("Accept", "*/*"),
          ("Accept-Encoding", "identity"),
          ("Range", "bytes=0-1023")] } : OutboundOpts).headers.lookup "Accept"
        = some "*/*" ∧
    ({ method := "GET", hostname := "a.example", port := 80, path := "/v.mp4",
       headers :=
         [("User-Agent", "Mozilla/5.0"), ("Accept", "*/*"),
          ("Accept-Encoding", "identity"),
          ("Range", "bytes=0-1023")] } : OutboundOpts).headers.lookup "Accept-Encoding"
        = some "identity" ∧
    ({ method := "GET", hostname := "a.example", port := 80, path := "/v.mp4",
       headers :=
         [("User-Agent", "Mozilla/5.0"), ("Accept", "*/*"),
          ("Accept-Encoding", "identity"),
          ("Range", "bytes=0-1023")] } : OutboundOpts).headers.lookup "Range"
        = some "bytes=0-1023" :=
  outbound_request_construction contentUpstream "http://a.example/v.mp4"
    (some "bytes=0-1023")
    { protocol := "http:", username := "", password := "", hostname := "a.example",
      port := none, pathname := "/v.mp4", search := "", hash := "" }
    (by decide) (Or.inr ⟨"bytes=0-1023", rfl, by decide⟩)

/-- C8: a transport-level failure of the upstream hop is answered with
HTTP 502, no headers and an empty body — no upstream error detail — and
the one failed outbound request is never retried. -/
theorem transport_error_yields_502_no_retry (upstream : Upstream) (u : String)
    (range : Option String) (parsed : URLRec)
    (hres : resolveTarget u = some parsed)
    (hup : upstream (schemeClient parsed) (buildOpts parsed range) =
      UpstreamOutcome.transportError) :
    (videoProxy upstream { queryUrl := some u, range := range }).response =
      { status := 502, headers := [], body := "" } ∧
    (videoProxy upstream { queryUrl := some u, range := range }).outbound.length
      = 1 := by
  rw [videoProxy_valid upstream u range parsed hres]
  simp [relayStep, hup]

/-- Witness for C8: the always-failing upstream at a concrete target. -/
theorem transport_error_yields_502_no_retry_witness :
    (videoProxy failingUpstream
      { queryUrl := some "http://a.example/v.mp4", range := none }).response =
      { status := 502, headers := [], body := "" } ∧
    (videoProxy failingUpstream
      { queryUrl := some "http://a.example/v.mp4", range := none }).outbound.length
      = 1 :=
  transport_error_yields_502_no_retry failingUpstream "http://a.example/v.mp4"
    none
    { protocol := "http:", username := "", password := "", hostname := "a.example",
      port := none, pathname := "/v.mp4", search := "", hash := "" }
    (by decide) rfl

/-- C9: the outbound path is exactly `pathname + search` of the parsed
target, and the constructed outbound request (including the choice of
client module) is invariant under the target's fragment and userinfo
components — they are dropped and never forwarded. -/
theorem outbound_drops_fragment_and_userinfo (parsed : URLRec)
    (range : Option String) (hashv user pass : String) :
    (buildOpts parsed range).path = parsed.pathname ++ parsed.search ∧
    buildOpts { parsed with hash := hashv, username := user, password := pass }
        range = buildOpts parsed range ∧
    schemeClient { parsed with hash := hashv, username := user, password := pass }
      = schemeClient parsed :=
  ⟨rfl, rfl, rfl⟩

/-- C1 counterexample: against an upstream that answers
`302 Location: http://b.example/v.mp4`, the inbound client receives
status 302 with a `Location` header — it observes an intermediate
redirect, contradicting the claim that only the final content response is
ever visible. -/
theorem client_observes_intermediate_redirect :
    (videoProxy redirectingUpstream
      { queryUrl := some "http://a.example/v.mp4",
        range := none }).response.status = 302 ∧
    (videoProxy redirectingUpstream
      { queryUrl := some "http://a.example/v.mp4",
        range := none }).response.headers.lookup "Location" =
      some "/video-proxy?url=http%3A%2F%2Fb.example%2Fv.mp4" ∧
    (videoProxy redirectingUpstream
      { queryUrl := some "http://a.example/v.mp4",
        range := none }).response.status ≠ 200 := by
  refine ⟨by decide, by decide, by decide⟩

/-- C1 (amended): redirect resolution is delegated to the caller, not
performed by the relay: on an upstream 301/302/307/308 with a non-empty
`Location`, the relay answers the inbound client with HTTP 302 whose
`Location` re-enters `/video-proxy` carrying the percent-encoded redirect
target, so the client re-issues the request and observes one such 302 per
hop before the final content response. -/
theorem redirect_bounced_back_to_client (upstream : Upstream) (u : String)
    (range : Option String) (parsed : URLRec) (pr : UpstreamResponse)
    (loc : String)
    (hres : resolveTarget u = some parsed)
    (hup : upstream (schemeClient parsed) (buildOpts parsed range) =
      UpstreamOutcome.response pr)
    (hst : pr.statusCode = 301 ∨ pr.statusCode = 302 ∨
      pr.statusCode = 307 ∨ pr.statusCode = 308)
    (hloc : pr.location = some loc) (hne : loc ≠ "") :
    (videoProxy upstream { queryUrl := some u, range := range }).response =
      { status := 302,
        headers :=
          [("Location", "/video-proxy?url=" ++ encodeURIComponentJs loc)],
        body := "" } := by
  have hred : isRedirectHop pr = true := by
    rcases hst with h | h | h | h <;>
      simp [isRedirectHop, h, truthy, hloc, hne]
  rw [videoProxy_valid upstream u range parsed hres]
  simp [relayStep, hup, handleUpstreamResponse, hred, hloc]

/-- Witness for the amended C1 at a concrete 302 hop. -/
theorem redirect_bounced_back_to_client_witness :
    (videoProxy redirectingUpstream
      { queryUrl := some "http://start.example/x", range := none }).response =
      { status := 302,
        headers :=
          [("Location",
            "/video-proxy?url=" ++ encodeURIComponentJs "http://b.example/v.mp4")],
        body := "" } :=
  redirect_bounced_back_to_client redirectingUpstream "http://start.example/x"
    none
    { protocol := "http:", username := "", password := "",
      hostname := "start.example", port := none, pathname := "/x",
      search := "", hash := "" }
    { statusCode := 302, contentType := none, contentLength := none,
      contentRange := none, location := some "http://b.example/v.mp4",
      body := "" }
    "http://b.example/v.mp4"
    (by decide) rfl (Or.inr (Or.inl rfl)) rfl (by decide)

/-- C2 counterexample: against an upstream that redirects to itself
indefinitely, the relay answers the inbound request with status 302 after
exactly one outbound hop — it never produces the claimed
UpstreamUnavailable / 502, and no hop cap exists to trigger one. -/
theorem redirect_loop_never_502 :
    (videoProxy selfRedirectUpstream
      { queryUrl := some "http://loop.example/v",
        range := none }).response.status = 302 ∧
    (videoProxy selfRedirectUpstream
      { queryUrl := some "http://loop.example/v",
        range := none }).response.status ≠ 502 ∧
    (videoProxy selfRedirectUpstream
      { queryUrl := some "http://loop.example/v",
        range := none }).outbound.length = 1 := by
  refine ⟨by decide, by decide, by decide⟩

/-- C2 (amended): the relay follows no redirect chain itself and so has
no hop cap: every inbound request issues at most one outbound request,
and when the upstream redirects the relay answers 302 (a bounce back to
`/video-proxy`), never a 502 — a self-redirecting upstream therefore
produces an unbounded client-driven chain of single-hop 302 responses
rather than terminating in UpstreamUnavailable. -/
theorem single_hop_no_redirect_cap (upstream : Upstream)
    (req : InboundRequest) (u : String) (parsed : URLRec)
    (pr : UpstreamResponse)
    (hq : req.queryUrl = some u)
    (hres : resolveTarget u = some parsed)
    (hup : upstream (schemeClient parsed) (buildOpts parsed req.range) =
      UpstreamOutcome.response pr)
    (hred : isRedirectHop pr = true) :
    (videoProxy upstream req).outbound.length ≤ 1 ∧
    (videoProxy upstream req).response.status = 302 ∧
    (videoProxy upstream req).response.status ≠ 502 := by
  have hreq : req = { queryUrl := some u, range := req.range } := by
    rcases req with ⟨q, r⟩
    simp_all
  rw [hreq, videoProxy_valid upstream u req.range parsed hres]
  simp [relayStep, hup, handleUpstreamResponse, hred]

/-- Witness for the amended C2 at the concrete self-redirect loop. -/
theorem single_hop_no_redirect_cap_witness :
    (videoProxy selfRedirectUpstream
      { queryUrl := some "http://start.example/x",
        range := none }).outbound.length ≤ 1 ∧
    (videoProxy selfRedirectUpstream
      { queryUrl := some "http://start.example/x",
        range := none }).response.status = 302 ∧
    (videoProxy selfRedirectUpstream
      { queryUrl := some "http://start.example/x",
        range := none }).response.status ≠ 502 :=
  single_hop_no_redirect_cap selfRedirectUpstream
    { queryUrl := some "http://start.example/x", range := none }
    "http://start.example/x"
    { protocol := "http:", username := "", password := "",
      hostname := "start.example", port := none, pathname := "/x",
      search := "", hash := "" }
    { statusCode := 302, contentType := none, contentLength := none,
      contentRange := none, location := some "http://loop.example/v",
      body := "" }
    rfl (by decide) rfl (by decide)

/-- C6 counterexample: the target `ftp://example.com/f` — a scheme that
is neither http nor https — is not answered with 400: the relay issues an
outbound request for it (with the plain-HTTP client on port 80) and
mirrors the upstream's 200. -/
theorem ftp_scheme_not_rejected :
    (videoProxy contentUpstream
      { queryUrl := some "ftp://example.com/f",
        range := none }).response.status = 200 ∧
    (videoProxy contentUpstream
      { queryUrl := some "ftp://example.com/f",
        range := none }).response.status ≠ 400 ∧
    (videoProxy contentUpstream
      { queryUrl := some "ftp://example.com/f", range := none }).outbound =
      [(ClientModule.http,
        { method := "GET", hostname := "example.com", port := 80, path := "/f",
          headers :=
            [("User-Agent", "Mozilla/5.0"), ("Accept", "*/*"),
             ("Accept-Encoding", "identity")] })] := by
  refine ⟨by decide, by decide, by decide⟩

/-- C6 (amended): the handler performs no scheme check: every value that
decodes and parses as an absolute URL leads to exactly one outbound
request whatever its scheme; any scheme other than `https:` selects the
plain-HTTP client, with the port defaulting to 80 when the URL carries
none.  Only missing, empty or unparsable values are answered 400. -/
theorem any_parsable_scheme_accepted (upstream : Upstream) (u : String)
    (range : Option String) (parsed : URLRec)
    (hres : resolveTarget u = some parsed)
    (hs : parsed.protocol ≠ "https:") :
    (videoProxy upstream { queryUrl := some u, range := range }).outbound =
      [(ClientModule.http, buildOpts parsed range)] ∧
    (parsed.port = none → (buildOpts parsed range).port = 80) := by
  constructor
  · rw [videoProxy_valid upstream u range parsed hres,
      relayStep_outbound upstream parsed range, schemeClient, if_neg hs]
  · intro hp
    simp [buildOpts, hp, hs]

/-- Witness for the amended C6 at the concrete `ftp://` target. -/
theorem any_parsable_scheme_accepted_witness :
    (videoProxy contentUpstream
      { queryUrl := some "ftp://example.com/f", range := none }).outbound =
      [(ClientModule.http,
        buildOpts
          { protocol := "ftp:", username := "", password := "",
            hostname := "example.com", port := none, pathname := "/f",
            search := "", hash := "" } none)] ∧
    ((URLRec.port
        { protocol := "ftp:", username := "", password := "",
          hostname := "example.com", port := none, pathname := "/f",
          search := "", hash := "" }) = none →
      (buildOpts
        { protocol := "ftp:", username := "", password := "",
          hostname := "example.com", port := none, pathname := "/f",
          search := "", hash := "" } none).port = 80) :=
  any_parsable_scheme_accepted contentUpstream "ftp://example.com/f" none
    { protocol := "ftp:", username := "", password := "",
      hostname := "example.com", port := none, pathname := "/f",
      search := "", hash := "" }
    (by decide) (by decide)

/-- Modelled from the spec for comparison with the code ("Must be
percent-decoded once, then parsed as an absolute URL"): the raw wire
value of the `url` parameter percent-decoded exactly once and then
parsed, yielding the path such a target would present to the upstream. -/
def specOnceDecodedPath (rawUrlParam : String) : Option String :=
  ((decodeURIComponentJs rawUrlParam).bind parseURL).map
    (fun parsed => parsed.pathname ++ parsed.search)

/-- C7 counterexample: take the wire value `http%3A%2F%2Fh%2F100%2525`,
the once-encoded form of the target `http://h/100%25` whose path carries
the literal percent-sequence `%25`.  Decoding once would put `/100%25` on
the wire to the upstream, but the handler (running after the framework's
own query decoding) decodes a second time and requests `/100%` — the
literal sequence does not reach the upstream intact. -/
theorem percent_sequences_not_intact :
    (handleWire contentUpstream "http%3A%2F%2Fh%2F100%2525" none).outbound.map
      (fun p => p.2.path) = ["/100%"] ∧
    specOnceDecodedPath "http%3A%2F%2Fh%2F100%2525" = some "/100%25" ∧
    ("/100%" : String) ≠ "/100%25" := by
  refine ⟨by decide, by decide, by decide⟩

/-- C7 (amended): the raw wire value of `url` is percent-decoded twice
before being parsed — once by the framework's query-string parsing and
once by the handler's own `decodeURIComponent` — so a literal
percent-encoded sequence in the target survives only if the client
double-encodes it. -/
theorem wire_value_decoded_twice (upstream : Upstream) (raw : String)
    (range : Option String) (d : String) (parsed : URLRec)
    (_hq : expressQueryDecode raw ≠ "")
    (hd : decodeURIComponentJs (expressQueryDecode raw) = some d)
    (hp : parseURL d = some parsed) :
    (handleWire upstream raw range).outbound =
      [(schemeClient parsed, buildOpts parsed range)] := by
  have hres : resolveTarget (expressQueryDecode raw) = some parsed := by
    simp [resolveTarget, hd, hp]
  rw [handleWire, videoProxy_valid upstream (expressQueryDecode raw) range parsed hres]
  exact relayStep_outbound upstream parsed range

/-- Witness for the amended C7: a doubly-encoded wire value whose two
decodings land on the target `http://h/a b` (space intact only because it
was double-encoded). -/
theorem wire_value_decoded_twice_witness :
    (handleWire contentUpstream "http%3A%2F%2Fh%2Fv%2520x" none).outbound =
      [(ClientModule.http,
        buildOpts
          { protocol := "http:", username := "", password := "",
            hostname := "h", port := none, pathname := "/v x",
            search := "", hash := "" } none)] :=
  wire_value_decoded_twice contentUpstream "http%3A%2F%2Fh%2Fv%2520x" none
    "http://h/v x"
    { protocol := "http:", username := "", password := "", hostname := "h",
      port := none, pathname := "/v x", search := "", hash := "" }
    (by decide) (by decide) (by decide)

end VideoProxy
